import Mathlib

/-!
Shallow embedding of `src/parfait/layer_wrappers.py` (a thin Python 2
convenience layer over the QGIS 2.x scripting API) together with proofs
of the specified properties.

Host-application objects (the layer registry, regex matching, layer
constructors, the settings store) are modelled as explicit parameters:
the registry is a `List Layer` snapshot in its iteration order, the
regex matcher `re.match` is an abstract `String → String → Bool`
function, and layer/CRS constructors record the arguments the Python
code hands to the host.  Python-specific behaviours that the code relies
on (truthiness of `None`/empty string/empty list, `str.find` returning
`-1`, negative-index slicing, `os.path.splitext`/`basename`) are
embedded faithfully.
-/

namespace Parfait

/-- A loaded map layer as seen by this code: the only attributes the
wrappers consume are its name, its type tag and (implicitly) its
identity inside the registry.  `lid` models object identity so that two
distinct layers may share a name and a type. -/
structure Layer where
  lname : String
  ltype : Nat
  lid : Nat
  deriving DecidableEq, Repr

/-- The `types` argument of `map_layers`: Python allows `None`, a single
type value, or a list of type values. -/
inductive TypesArg where
  | none
  | single (t : Nat)
  | list (ts : List Nat)
  deriving DecidableEq, Repr

/-- Lines 15-16 of the source: `if types is not None and not
isinstance(types, list): types = [types]`. -/
def normTypes : TypesArg → Option (List Nat)
  | .none => Option.none
  | .single t => Option.some [t]
  | .list ts => Option.some ts

/-- Python truthiness of the (optional string) `name` argument:
`None` and the empty string are falsy. -/
def strTruthy : Option String → Bool
  | Option.none => false
  | Option.some s => !(s == "")

/-- Python truthiness of the normalized `types` value: `None` and the
empty list are falsy. -/
def listTruthy : Option (List Nat) → Bool
  | Option.none => false
  | Option.some ts => !ts.isEmpty

/-- `map_layers(name=None, types=None)`, lines 8-26 of the source.
`reMatch pat s` models `re.match(pat, s)` being truthy; `registry`
models `_layerreg.mapLayers().values()` in registry iteration order.
When `name or types` is truthy the result is the list of name matches
(if `name` truthy) concatenated (`+=`) with the list of type matches
(if `types` truthy); otherwise all layers are returned. -/
def map_layers (reMatch : String → String → Bool) (registry : List Layer)
    (name : Option String) (typesArg : TypesArg) : List Layer :=
  let types := normTypes typesArg
  let layers := registry
  if strTruthy name || listTruthy types then
    let l1 := if strTruthy name then
        layers.filter (fun layer => reMatch (name.getD "") layer.lname)
      else []
    let l2 := if listTruthy types then
        layers.filter (fun layer => (types.getD []).contains layer.ltype)
      else []
    l1 ++ l2
  else
    layers

/-- The `layer` argument of `add_layer`: a single layer object (no
`__iter__`) or a sequence of layers. -/
inductive LayerArg where
  | single (l : Layer)
  | seq (ls : List Layer)
  deriving DecidableEq, Repr

/-- What one call to `add_layer` does, lines 29-39: the sequence handed
to `QgsMapLayerRegistry.instance().addMapLayers`, the `load_in_legend`
flag passed along, and the value returned to the caller. -/
structure AddLayerCall where
  handed : List Layer
  legend : Bool
  returned : List Layer
  deriving DecidableEq, Repr

/-- `add_layer(layer, load_in_legend=True)`: a non-iterable argument is
wrapped into a one-element list, the list is handed to the host
registry together with the legend flag, and the list is returned. -/
def add_layer (layer : LayerArg) (load_in_legend : Bool) : AddLayerCall :=
  let ls := match layer with
    | .single l => [l]
    | .seq ls => ls
  ⟨ls, load_in_legend, ls⟩

/-- The Python semantic field types that can appear as the second
component of a `(name, type)` field tuple. -/
inductive PyType where
  | str
  | float
  | int
  | bool
  | other (n : Nat)
  deriving DecidableEq, Repr

/-- `TYPE_MAP`, lines 41-46: `{str: QVariant.String, float:
QVariant.Double, int: QVariant.Int, bool: QVariant.Bool}` with the Qt
`QVariant.Type` codes (String = 10, Double = 6, Int = 2, Bool = 1).
`Option.none` models a key that is absent from the dict. -/
def TYPE_MAP : PyType → Option Nat
  | .str => Option.some 10
  | .float => Option.some 6
  | .int => Option.some 2
  | .bool => Option.some 1
  | .other _ => Option.none

/-- The `QVariant.String` type code, the `.get` default on line 60. -/
def qvariantString : Nat := 10

/-- A `QgsField` as consumed here: a name and a field-type code. -/
structure QgsField where
  fname : String
  ftype : Nat
  deriving DecidableEq, Repr

/-- One entry of the `fields` argument: either an already-typed
`QgsField` object or a `(name, type)` tuple. -/
inductive FieldArg where
  | field (f : QgsField)
  | pair (n : String) (t : PyType)
  deriving DecidableEq, Repr

/-- `_toQgsField(f)`, lines 57-60: a `QgsField` passes through
unchanged; a `(name, type)` tuple becomes `QgsField(f[0],
TYPE_MAP.get(f[1], QtCore.QVariant.String))`. -/
def _toQgsField : FieldArg → QgsField
  | .field f => f
  | .pair n t => ⟨n, (TYPE_MAP t).getD qvariantString⟩

/-- `layer_from_name(name)`, lines 141-150: iterate over the registry
values and return the first layer whose name equals `name`; falling off
the loop returns Python `None`, modelled as `Option.none`. -/
def layer_from_name : List Layer → String → Option Layer
  | [], _ => Option.none
  | layer :: layers, name =>
      if layer.lname == name then Option.some layer
      else layer_from_name layers name

/-! ### Python string/path primitives used by the source -/

/-- Python `s.find(sub)`: the lowest index at which `sub` occurs in
`s`, or `-1` when it does not occur. -/
def pyFind (s sub : String) : Int :=
  match (List.range (s.length + 1)).find?
      (fun i => (s.data.drop i).take sub.length == sub.data) with
  | Option.some i => (i : Int)
  | Option.none => -1

/-- Python `s.rfind(c)` for a single character: the highest index at
which `c` occurs in `s`, or `-1`. -/
def pyRfindChar (s : String) (c : Char) : Int :=
  match ((List.range s.length).filter
      (fun i => s.data.get? i == Option.some c)).getLast? with
  | Option.some i => (i : Int)
  | Option.none => -1

/-- Python `s[a:]`: a negative start counts from the end, clamped at
zero. -/
def pySliceFrom (s : String) (a : Int) : String :=
  if a < 0 then ⟨s.data.drop ((s.length + a).toNat)⟩
  else ⟨s.data.drop a.toNat⟩

/-- Python `s[:b]`: a negative stop counts from the end, clamped at
zero. -/
def pySliceTo (s : String) (b : Int) : String :=
  if b < 0 then ⟨s.data.take ((s.length + b).toNat)⟩
  else ⟨s.data.take b.toNat⟩

/-- `os.path.basename(p)` on posix: everything after the last `'/'`. -/
def basename (p : String) : String :=
  pySliceFrom p (pyRfindChar p '/' + 1)

/-- `os.path.splitext(p)` on posix (CPython `genericpath._splitext`):
split at the last dot, provided that dot lies after the last path
separator and the basename does not consist solely of leading dots up
to it. -/
def splitext (p : String) : String × String :=
  let sepIdx := pyRfindChar p '/'
  let dotIdx := pyRfindChar p '.'
  if sepIdx < dotIdx then
    let b := (sepIdx + 1).toNat
    let d := dotIdx.toNat
    if (List.range' b (d - b)).any
        (fun j => !(p.data.get? j == Option.some '.')) then
      (⟨p.data.take d⟩, ⟨p.data.drop d⟩)
    else (p, "")
  else (p, "")

/-! ### The layer factory `new_vector_layer` -/

/-- A coordinate reference system object: all this code consumes is its
validity flag and its authority id. -/
structure QgsCRS where
  authid : String
  valid : Bool
  deriving DecidableEq, Repr

/-- The `crs` argument: a string authority code or an already-built CRS
object (line 94: `isinstance(crs, basestring)`). -/
inductive CrsArg where
  | str (s : String)
  | crs (c : QgsCRS)
  deriving DecidableEq, Repr

/-- Lines 94-95: a string argument is resolved through the host
constructor `QgsCoordinateReferenceSystem`, modelled by the explicit
host function `crsFromString`; a CRS object is used as-is. -/
def resolveCrs (crsFromString : String → QgsCRS) : CrsArg → QgsCRS
  | .str s => crsFromString s
  | .crs c => c

/-- The `fields` argument of `new_vector_layer`: a `QgsFields`
container or a list of field tuples / field objects (line 119). -/
inductive FieldsArg where
  | qgsFields (fs : List QgsField)
  | list (fs : List FieldArg)
  deriving DecidableEq, Repr

/-- Lines 119-124: a `QgsFields` container passes through; a list is
mapped through `_toQgsField` and appended into a fresh container. -/
def normalizeFields : FieldsArg → List QgsField
  | .qgsFields fs => fs
  | .list fs => fs.map _toQgsField

/-- Lines 109-111: parse one key of
`QgsVectorFileWriter.supportedFiltersAndFormats()` into an extension:
`extension = key[key.find('*.') + 2:]` then
`extension = extension[:extension.find(' ')]` (with Python `find`
returning `-1` when absent, so a key such as `"... (*.shp)"` has its
trailing `')'` stripped by the `[:-1]` slice). -/
def parseExtension (key : String) : String :=
  let extension := pySliceFrom key (pyFind key "*." + 2)
  pySliceTo extension (pyFind extension " ")

/-- Python dict assignment `m[k] = v` on an association list kept in
insertion order: an existing key is overwritten in place, a new key is
appended. -/
def dictInsert (m : List (String × Nat)) (k : String) (v : Nat) :
    List (String × Nat) :=
  if m.any (fun kv => kv.1 == k) then
    m.map (fun kv => if kv.1 == k then (k, v) else kv)
  else m ++ [(k, v)]

/-- Python dict lookup `m[k]` / `k in m` on the association list. -/
def dictLookup (m : List (String × Nat)) (k : String) : Option Nat :=
  (m.find? (fun kv => kv.1 == k)).map (fun kv => kv.2)

/-- Lines 106-112: rebuild the extension → OGR-driver-code table from
the host's filter/format pairs (`formats.items()` in the host's dict
iteration order; driver codes abstracted to `Nat`). -/
def buildOGRCodes (formats : List (String × Nat)) : List (String × Nat) :=
  formats.foldl (fun m kv => dictInsert m (parseExtension kv.1) kv.2) []

/-- The arguments handed to the host writer
`QgsVectorFileWriter(filename, encoding, qgsfields, geometryType, crs,
OGRCodes[extension])` on lines 126-127. -/
structure WriterCall where
  wfilename : String
  wencoding : String
  wfields : List QgsField
  wgeometryType : Nat
  wcrs : QgsCRS
  wdriver : Nat
  deriving DecidableEq, Repr

/-- The arguments handed to the host constructor
`QgsVectorLayer(source, name, provider)`. -/
structure VectorLayerCall where
  vsource : String
  vname : String
  vprovider : String
  deriving DecidableEq, Repr

/-- The outcome of the file branch of `new_vector_layer`: the writer
invocation that materializes the file, and the layer handle opened over
it. -/
structure FileLayerResult where
  writer : WriterCall
  layer : VectorLayerCall
  deriving DecidableEq, Repr

/-- `new_vector_layer(filename, fields, geometryType, crs, encoding)`,
lines 76-131.  `filename = None` selects the memory-layer branch, whose
first statement (line 97) is `uri = self.GEOM_TYPE_MAP[geometryType]`:
`new_vector_layer` is a module-level function, `self` is bound nowhere
in its scope, so the branch raises `NameError` before building any
descriptor — modelled as the corresponding `Except.error`.  A string
path selects the file branch: resolve the extension's driver via the
rebuilt `OGRCodes` table, falling back to `'shp'` (and appending
`'.shp'` to the path) for an unknown extension, normalize the fields,
invoke the writer, and open the written file as an `'ogr'` layer named
by its basename.  The `OGRCodes[extension]` subscript on line 127
raises `KeyError` if even `'shp'` is absent from the table. -/
def new_vector_layer (crsFromString : String → QgsCRS)
    (formats : List (String × Nat)) (filename : Option String)
    (fields : FieldsArg) (geometryType : Nat) (crs : CrsArg)
    (encoding : String) : Except String FileLayerResult :=
  let crs := resolveCrs crsFromString crs
  match filename with
  | Option.none => Except.error "NameError: name self is not defined"
  | Option.some filename =>
      let OGRCodes := buildOGRCodes formats
      let extension := pySliceFrom (splitext filename).2 1
      let ef :=
        if dictLookup OGRCodes extension = Option.none then
          ("shp", filename ++ ".shp")
        else (extension, filename)
      let extension := ef.1
      let filename := ef.2
      let qgsfields := normalizeFields fields
      match dictLookup OGRCodes extension with
      | Option.none => Except.error ("KeyError: " ++ extension)
      | Option.some code =>
          Except.ok
            { writer := ⟨filename, encoding, qgsfields, geometryType, crs, code⟩,
              layer := ⟨filename, basename filename, "ogr"⟩ }

/-- `GEOM_TYPE_MAP`, lines 48-55, keyed by the host WKB geometry-type
codes (`QGis.WKBPoint = 1`, `WKBLineString = 2`, `WKBPolygon = 3`,
`WKBMultiPoint = 4`, `WKBMultiLineString = 5`, `WKBMultiPolygon = 6`). -/
def GEOM_TYPE_MAP : List (Nat × String) :=
  [(1, "Point"), (2, "LineString"), (3, "Polygon"),
   (4, "MultiPoint"), (5, "MultiLineString"), (6, "MultiPolygon")]

/-! ### The layer loader -/

/-- The host behaviours `load_layer` depends on: whether
`QgsVectorLayer(path, name, provider)` and `QgsRasterLayer(path, name)`
produce a valid handle for a given path (validity is a property of the
source, not of the display name). -/
structure LoadHost where
  vectorValid : String → Bool
  rasterValid : String → Bool

/-- A successfully loaded layer: which host constructor produced it,
over which source, with which display name. -/
inductive LoadedLayer where
  | vector (source dispname : String)
  | raster (source dispname : String)
  deriving DecidableEq, Repr

/-- Line 161: `name = name or
os.path.splitext(os.path.basename(filename))[0]` — a `None` or empty
`name` argument defaults to the basename without its extension. -/
def loadLayerName (filename : String) (name : Option String) : String :=
  match name with
  | Option.none => (splitext (basename filename)).1
  | Option.some n => if n == "" then (splitext (basename filename)).1 else n

/-- `load_layer(filename, name=None)`, lines 152-168: try the vector
constructor first; if the handle is invalid try the raster constructor;
if that is also invalid raise `RuntimeError('Could not load layer: ' +
unicode(filename))`, modelled as `Except.error`. -/
def load_layer (host : LoadHost) (filename : String) (name : Option String) :
    Except String LoadedLayer :=
  let dispname := loadLayerName filename name
  if host.vectorValid filename then
    Except.ok (.vector filename dispname)
  else if host.rasterValid filename then
    Except.ok (.raster filename dispname)
  else
    Except.error ("Could not load layer: " ++ filename)

/-! ### Module-level name bindings

The source binds the following global names: the imports on lines 1-4
(`import os`, `import re`, `from qgis.core import *`,
`from PyQt4 import QtGui, QtCore`), the module constant `_layerreg`,
the two lookup tables, and the function definitions.  The star import
of the host core module contributes the host's exported class names;
the ones this file uses are listed explicitly.  Python builtins
referenced by the file are listed separately. -/

/-- Every global name bound in `layer_wrappers.py`, including the host
class names the file actually uses from the `qgis.core` star import. -/
def moduleBindings : List String :=
  ["os", "re", "QtGui", "QtCore", "_layerreg",
   "map_layers", "add_layer", "TYPE_MAP", "GEOM_TYPE_MAP",
   "_toQgsField", "_fieldName",
   "new_points_layer", "new_lines_layer", "new_polygons_layer",
   "new_vector_layer", "create_wms_layer", "create_wfs_layer",
   "layer_from_name", "load_layer", "load_layer_no_crs_dialog",
   "load_vector",
   "QgsMapLayerRegistry", "QGis", "QgsField", "QgsFields",
   "QgsVectorLayer", "QgsRasterLayer", "QgsCoordinateReferenceSystem",
   "QgsVectorFileWriter"]

/-- The Python builtin names the file references. -/
def pythonBuiltinsUsed : List String :=
  ["isinstance", "hasattr", "unicode", "basestring", "str", "float",
   "int", "bool", "list", "RuntimeError"]

/-- The parameters of `new_vector_layer` (its only local bindings in
scope when line 97 executes). -/
def new_vector_layer_params : List String :=
  ["filename", "fields", "geometryType", "crs", "encoding"]

/-- The name the three convenience wrappers (lines 67-74) apply their
arguments to. -/
def wrapperCallee : String := "newVectorLayer"

/-- The name line 176 reads the settings object from:
`settings = QTCore.QSettings()` (the import on line 4 binds `QtCore`,
lowercase t). -/
def settingsModuleName : String := "QTCore"

/-- `load_layer_no_crs_dialog(filename, name=None)`, lines 170-181: its
first statement `settings = QTCore.QSettings()` resolves the unbound
name `QTCore`, so every call raises `NameError` before the projection
setting is read, cleared or restored and before `load_layer` runs. -/
def load_layer_no_crs_dialog (_filename : String) (_name : Option String) :
    Except String LoadedLayer :=
  Except.error "NameError: name QTCore is not defined"

/-- The host WKB attribute names the module reads off the `QGis` enum
when building `GEOM_TYPE_MAP` (lines 48-55). -/
def geomTableWkbNames : List String :=
  ["WKBPoint", "WKBLineString", "WKBPolygon",
   "WKBMultiPoint", "WKBMultiLineString", "WKBMultiPolygon"]

/-- The WKB attribute name `new_lines_layer` (line 71) reads off the
`QGis` enum. -/
def linesWrapperWkbName : String := "WKBLine"

/-! ### Theorems -/

/-- Shared helper: when both the name pattern and the type list are
truthy, `map_layers` returns the concatenation of the two filter
passes. -/
theorem map_layers_both_eq (reMatch : String → String → Bool)
    (registry : List Layer) (s : String) (ts : List Nat)
    (hs : s ≠ "") (hts : ts ≠ []) :
    map_layers reMatch registry (Option.some s) (.list ts) =
      registry.filter (fun layer => reMatch s layer.lname) ++
        registry.filter (fun layer => ts.contains layer.ltype) := by
  have hs' : (s == "") = false := by
    simpa using hs
  have hts' : ts.isEmpty = false := by
    simpa using hts
  simp [map_layers, normTypes, strTruthy, listTruthy, hs', hts']

/-- C1: when `map_layers` is given both a (non-empty) name pattern and
a (non-empty) type set — as a list or as a single value — the result is
the concatenation of the independent name-filter pass and type-filter
pass over the registry: a union of the two filters, not their
intersection. -/
theorem map_layers_union_of_filters (reMatch : String → String → Bool)
    (registry : List Layer) (s : String) (ts : List Nat) (t : Nat)
    (hs : s ≠ "") (hts : ts ≠ []) :
    map_layers reMatch registry (Option.some s) (.list ts) =
      registry.filter (fun layer => reMatch s layer.lname) ++
        registry.filter (fun layer => ts.contains layer.ltype) ∧
    map_layers reMatch registry (Option.some s) (.single t) =
      registry.filter (fun layer => reMatch s layer.lname) ++
        registry.filter (fun layer => [t].contains layer.ltype) := by
  constructor
  · exact map_layers_both_eq reMatch registry s ts hs hts
  · have hs' : (s == "") = false := by
      simpa using hs
    simp [map_layers, normTypes, strTruthy, listTruthy, hs']

/-- Witness for C1 at a concrete registry, pattern and type set. -/
theorem map_layers_union_of_filters_witness :
    ("A" : String) ≠ "" ∧ ([1] : List Nat) ≠ [] ∧
    map_layers (fun p n => p == n) [⟨"A", 0, 0⟩, ⟨"B", 1, 1⟩, ⟨"A", 1, 2⟩]
        (Option.some "A") (.list [1]) =
      [⟨"A", 0, 0⟩, ⟨"A", 1, 2⟩, ⟨"B", 1, 1⟩, ⟨"A", 1, 2⟩] := by
  refine ⟨by decide, by decide, ?_⟩
  have h := (map_layers_union_of_filters (fun p n => p == n)
    [⟨"A", 0, 0⟩, ⟨"B", 1, 1⟩, ⟨"A", 1, 2⟩] "A" [1] 1
    (by decide) (by decide)).1
  rw [h]
  decide

/-- C10: when both filters are truthy, a registered layer that passes
both of them is counted at least twice in the result of `map_layers`:
once by the name pass and once by the type pass, so the combined list
is not duplicate-free. -/
theorem map_layers_both_passes_duplicate (reMatch : String → String → Bool)
    (registry : List Layer) (s : String) (ts : List Nat) (l : Layer)
    (hs : s ≠ "") (hmem : l ∈ registry)
    (hname : reMatch s l.lname = true) (htype : l.ltype ∈ ts) :
    2 ≤ (map_layers reMatch registry (Option.some s) (.list ts)).count l := by
  have hts : ts ≠ [] := by
    intro h
    rw [h] at htype
    exact (List.not_mem_nil _) htype
  rw [map_layers_both_eq reMatch registry s ts hs hts, List.count_append]
  have h1 : 0 < (registry.filter (fun layer => reMatch s layer.lname)).count l :=
    List.count_pos_iff.mpr (List.mem_filter.mpr ⟨hmem, hname⟩)
  have h2 : 0 < (registry.filter (fun layer => ts.contains layer.ltype)).count l :=
    List.count_pos_iff.mpr
      (List.mem_filter.mpr ⟨hmem, by simpa using htype⟩)
  omega

/-- Witness for C10: the layer named "A" with type 1 passes both
filters and indeed appears twice. -/
theorem map_layers_both_passes_duplicate_witness :
    2 ≤ (map_layers (fun p n => p == n)
        [⟨"A", 0, 0⟩, ⟨"B", 1, 1⟩, ⟨"A", 1, 2⟩]
        (Option.some "A") (.list [1])).count ⟨"A", 1, 2⟩ :=
  map_layers_both_passes_duplicate (fun p n => p == n)
    [⟨"A", 0, 0⟩, ⟨"B", 1, 1⟩, ⟨"A", 1, 2⟩] "A" [1] ⟨"A", 1, 2⟩
    (by decide) (by decide) (by decide) (by decide)

/-- C7: registering a single layer and registering the one-element
sequence holding it are equivalent calls — both normalize to the same
one-element sequence, hand it (with the legend flag) to the host
registry, and return it. -/
theorem add_layer_single_eq_singleton (l : Layer) (b : Bool) :
    add_layer (.single l) b = add_layer (.seq [l]) b ∧
    (add_layer (.single l) b).handed = [l] ∧
    (add_layer (.single l) b).legend = b ∧
    (add_layer (.single l) b).returned = [l] :=
  ⟨rfl, rfl, rfl, rfl⟩

/-- C8: exact-name lookup returns the head of the registry's
name-filtered sublist — the first registered layer (in registry
iteration order) whose name equals the query — and returns the
not-found signal `Option.none`, rather than failing, exactly when no
registered layer has that name. -/
theorem layer_from_name_spec (registry : List Layer) (name : String) :
    layer_from_name registry name =
      (registry.filter (fun layer => layer.lname == name)).head? ∧
    (layer_from_name registry name = Option.none ↔
      ∀ l ∈ registry, l.lname ≠ name) := by
  have hmain : layer_from_name registry name =
      (registry.filter (fun layer => layer.lname == name)).head? := by
    induction registry with
    | nil => rfl
    | cons l ls ih =>
        by_cases h : (l.lname == name) = true
        · simp [layer_from_name, h]
        · have h' : (l.lname == name) = false := by simpa using h
          simp only [layer_from_name, h', if_false, List.filter_cons,
            Bool.false_eq_true, ite_false, ih]
  refine ⟨hmain, ?_⟩
  rw [hmain, List.head?_eq_none_iff, List.filter_eq_nil_iff]
  constructor
  · intro h l hl hname
    exact h l hl (by simpa using hname)
  · intro h l hl
    simpa using h l hl

/-- C6: field normalization maps a `(name, type)` pair with an unmapped
type to a field carrying the text (`QVariant.String`) code, maps a pair
with a mapped type to the code from `TYPE_MAP`, and passes an
already-typed `QgsField` through unchanged. -/
theorem toQgsField_spec (n : String) (t : PyType) (c : Nat) (f : QgsField) :
    (TYPE_MAP t = Option.none →
      _toQgsField (.pair n t) = ⟨n, qvariantString⟩) ∧
    (TYPE_MAP t = Option.some c → _toQgsField (.pair n t) = ⟨n, c⟩) ∧
    _toQgsField (.field f) = f := by
  refine ⟨?_, ?_, rfl⟩
  · intro h
    simp [_toQgsField, h]
  · intro h
    simp [_toQgsField, h]

/-- Witness for C6: an unmapped type gets the text code 10, the mapped
type `float` gets the double code 6, and a `QgsField` passes through. -/
theorem toQgsField_spec_witness :
    TYPE_MAP (.other 7) = Option.none ∧
    _toQgsField (.pair "x" (.other 7)) = ⟨"x", qvariantString⟩ ∧
    TYPE_MAP .float = Option.some 6 ∧
    _toQgsField (.pair "y" .float) = ⟨"y", 6⟩ :=
  ⟨rfl, (toQgsField_spec "x" (.other 7) 0 ⟨"", 0⟩).1 rfl, rfl,
    (toQgsField_spec "y" .float 6 ⟨"", 0⟩).2.1 rfl⟩

/-- C5: `load_layer` tries the vector interpretation first and returns
it when valid; falls back to the raster interpretation only when the
vector handle is invalid; and raises the load error carrying the failed
path exactly when neither interpretation is valid. -/
theorem load_layer_spec (host : LoadHost) (filename : String)
    (name : Option String) :
    (host.vectorValid filename = true →
      load_layer host filename name =
        Except.ok (.vector filename (loadLayerName filename name))) ∧
    (host.vectorValid filename = false → host.rasterValid filename = true →
      load_layer host filename name =
        Except.ok (.raster filename (loadLayerName filename name))) ∧
    (host.vectorValid filename = false → host.rasterValid filename = false →
      load_layer host filename name =
        Except.error ("Could not load layer: " ++ filename)) ∧
    ((∃ e, load_layer host filename name = Except.error e) ↔
      host.vectorValid filename = false ∧
        host.rasterValid filename = false) := by
  refine ⟨?_, ?_, ?_, ?_⟩
  · intro hv
    simp [load_layer, hv]
  · intro hv hr
    simp [load_layer, hv, hr]
  · intro hv hr
    simp [load_layer, hv, hr]
  · constructor
    · rintro ⟨e, he⟩
      by_cases hv : host.vectorValid filename
      · simp [load_layer, hv] at he
      · by_cases hr : host.rasterValid filename
        · simp [load_layer, hv, hr] at he
        · exact ⟨by simpa using hv, by simpa using hr⟩
    · rintro ⟨hv, hr⟩
      exact ⟨"Could not load layer: " ++ filename, by simp [load_layer, hv, hr]⟩

/-- Witness for C5: a path neither driver accepts yields the load
error naming the path. -/
theorem load_layer_spec_witness :
    load_layer ⟨fun _ => false, fun _ => false⟩ "missing.file" Option.none =
      Except.error "Could not load layer: missing.file" :=
  (load_layer_spec ⟨fun _ => false, fun _ => false⟩ "missing.file"
    Option.none).2.2.1 rfl rfl

/-- C2: given that the host format table maps the `shp` extension to
the shapefile driver, a destination path whose extension is not in the
table is coerced — the shapefile driver is used and `.shp` is appended
to the path (both in the writer call and in the layer opened over it)
— while a path with a recognized extension keeps its path and gets the
driver resolved from that extension. -/
theorem new_vector_layer_extension_policy
    (crsFromString : String → QgsCRS) (formats : List (String × Nat))
    (filename : String) (fields : FieldsArg) (geometryType : Nat)
    (crs : CrsArg) (encoding : String) (dshp : Nat)
    (hshp : dictLookup (buildOGRCodes formats) "shp" = Option.some dshp) :
    (dictLookup (buildOGRCodes formats)
        (pySliceFrom (splitext filename).2 1) = Option.none →
      new_vector_layer crsFromString formats (Option.some filename) fields
          geometryType crs encoding =
        Except.ok
          { writer := ⟨filename ++ ".shp", encoding, normalizeFields fields,
                       geometryType, resolveCrs crsFromString crs, dshp⟩,
            layer := ⟨filename ++ ".shp", basename (filename ++ ".shp"),
                      "ogr"⟩ }) ∧
    (∀ d, dictLookup (buildOGRCodes formats)
        (pySliceFrom (splitext filename).2 1) = Option.some d →
      new_vector_layer crsFromString formats (Option.some filename) fields
          geometryType crs encoding =
        Except.ok
          { writer := ⟨filename, encoding, normalizeFields fields,
                       geometryType, resolveCrs crsFromString crs, d⟩,
            layer := ⟨filename, basename filename, "ogr"⟩ }) := by
  constructor
  · intro h
    simp [new_vector_layer, h, hshp]
  · intro d hd
    simp [new_vector_layer, hd]

/-- A sample host format table (two drivers, filter strings in the
host's syntax) used to instantiate witnesses. -/
def sampleFormats : List (String × Nat) :=
  [("ESRI Shapefile (*.shp)", 1), ("GeoJSON (*.geojson)", 2)]

/-- A sample host CRS resolver used to instantiate witnesses: every
authority string resolves to a valid CRS carrying that authid. -/
def sampleCrsFromString : String → QgsCRS := fun s => ⟨s, true⟩

/-- Witness for C2: with the sample format table, `out.xyz` (unknown
extension) is written as `out.xyz.shp` with the shapefile driver, and
`out.geojson` (known extension) keeps its path and driver. -/
theorem new_vector_layer_extension_policy_witness :
    dictLookup (buildOGRCodes sampleFormats) "shp" = Option.some 1 ∧
    dictLookup (buildOGRCodes sampleFormats)
      (pySliceFrom (splitext "out.xyz").2 1) = Option.none ∧
    new_vector_layer sampleCrsFromString sampleFormats
        (Option.some "out.xyz") (.list [.pair "a" .str]) 1
        (.str "EPSG:4326") "utf-8" =
      Except.ok
        { writer := ⟨"out.xyz.shp", "utf-8", [⟨"a", 10⟩], 1,
                     ⟨"EPSG:4326", true⟩, 1⟩,
          layer := ⟨"out.xyz.shp", "out.xyz.shp", "ogr"⟩ } ∧
    new_vector_layer sampleCrsFromString sampleFormats
        (Option.some "out.geojson") (.list [.pair "a" .str]) 1
        (.str "EPSG:4326") "utf-8" =
      Except.ok
        { writer := ⟨"out.geojson", "utf-8", [⟨"a", 10⟩], 1,
                     ⟨"EPSG:4326", true⟩, 2⟩,
          layer := ⟨"out.geojson", "out.geojson", "ogr"⟩ } := by
  refine ⟨by decide, by decide, ?_, ?_⟩
  · have h := (new_vector_layer_extension_policy sampleCrsFromString
        sampleFormats "out.xyz" (.list [.pair "a" .str]) 1
        (.str "EPSG:4326") "utf-8" 1 (by decide)).1 (by decide)
    rw [h]
    rfl
  · have h := (new_vector_layer_extension_policy sampleCrsFromString
        sampleFormats "out.geojson" (.list [.pair "a" .str]) 1
        (.str "EPSG:4326") "utf-8" 1 (by decide)).2 2 (by decide)
    rw [h]
    rfl

/-- C3 (code slip): the first statement of `load_layer_no_crs_dialog`
(line 176, `settings = QTCore.QSettings()`) reads the name `QTCore`,
which is bound neither by the module (the import binds `QtCore`) nor by
the builtins, so every call raises `NameError` before the projection
setting is read, cleared or restored and before any load happens. -/
theorem load_layer_no_crs_dialog_name_error (filename : String)
    (name : Option String) :
    settingsModuleName ∉ moduleBindings ++ pythonBuiltinsUsed ∧
    "QtCore" ∈ moduleBindings ∧
    load_layer_no_crs_dialog filename name =
      Except.error "NameError: name QTCore is not defined" :=
  ⟨by decide, by decide, rfl⟩

/-- C4 (code slip): the memory branch of `new_vector_layer` (line 97,
`uri = self.GEOM_TYPE_MAP[geometryType]`) reads the name `self`, which
is bound neither among the function's parameters nor in the module or
builtins, so `filename = None` raises `NameError` instead of building
the memory-layer descriptor. -/
theorem new_vector_layer_memory_self_unbound
    (crsFromString : String → QgsCRS) (formats : List (String × Nat))
    (fields : FieldsArg) (geometryType : Nat) (crs : CrsArg)
    (encoding : String) :
    "self" ∉ moduleBindings ++ pythonBuiltinsUsed ++ new_vector_layer_params ∧
    new_vector_layer crsFromString formats Option.none fields geometryType
        crs encoding =
      Except.error "NameError: name self is not defined" :=
  ⟨by decide, rfl⟩

/-- C9 (code slip): the three convenience wrappers apply the name
`newVectorLayer`, which is not bound in the module (the factory is
bound as `new_vector_layer`), and `new_lines_layer` additionally reads
the attribute `WKBLine`, which is not among the WKB names the module
itself uses for its geometry table — so the wrappers cannot delegate to
the factory as specified. -/
theorem convenience_wrappers_callee_unbound :
    wrapperCallee ∉ moduleBindings ++ pythonBuiltinsUsed ∧
    "new_vector_layer" ∈ moduleBindings ∧
    linesWrapperWkbName ∉ geomTableWkbNames ∧
    "WKBPoint" ∈ geomTableWkbNames ∧
    "WKBLineString" ∈ geomTableWkbNames ∧
    "WKBPolygon" ∈ geomTableWkbNames :=
  ⟨by decide, by decide, by decide, by decide, by decide, by decide⟩

end Parfait
